import Mathlib

/-!
Verification of the classification-and-routing engine and the equation
normalization pipeline of this repository.

Text is embedded as `List Char` (Python strings). Character-class tests
mirror the Python built-ins over the code points the program can meet:
`pyIsSpace` models `str.isspace` (the Unicode whitespace code points),
`pyIsDigit` models `str.isdigit` on ASCII digits, `pyIsAlpha` models
`str.isalpha` on ASCII letters plus the five CJK blocks the program
itself singles out, and `pyLower` models `str.lower` on ASCII.
Python float comparisons with the literals `0.3` and `0.5` are modelled
with exact rational arithmetic: for the integer counts the program
compares, IEEE double rounding of `n * 0.3` and `n * 0.5` never crosses
an integer, so the comparisons agree.
-/

/-- Models Python `str.isspace` on a single character: the Unicode
whitespace code points (tab through carriage return, the information
separators, space, NEL, NBSP, ogham space, the U+2000 range, line and
paragraph separators, narrow and medium spaces, and ideographic space). -/
def pyIsSpace (c : Char) : Bool :=
  decide (c.toNat = 9 ∨ c.toNat = 10 ∨ c.toNat = 11 ∨ c.toNat = 12 ∨ c.toNat = 13 ∨
    c.toNat = 28 ∨ c.toNat = 29 ∨ c.toNat = 30 ∨ c.toNat = 31 ∨ c.toNat = 32 ∨
    c.toNat = 133 ∨ c.toNat = 160 ∨ c.toNat = 5760 ∨
    (8192 ≤ c.toNat ∧ c.toNat ≤ 8202) ∨ c.toNat = 8232 ∨ c.toNat = 8233 ∨
    c.toNat = 8239 ∨ c.toNat = 8287 ∨ c.toNat = 12288)

/-- Models Python `str.isdigit` on a single character (ASCII digits `0`-`9`). -/
def pyIsDigit (c : Char) : Bool :=
  decide (48 ≤ c.toNat ∧ c.toNat ≤ 57)

/-- Embeds `_is_cjk` from `src/專題.py`: the five Unicode block ranges
U+4E00-U+9FFF, U+3400-U+4DBF, U+AC00-U+D7AF, U+3040-U+309F, U+30A0-U+30FF. -/
def isCjk (c : Char) : Bool :=
  decide ((0x4e00 ≤ c.toNat ∧ c.toNat ≤ 0x9fff) ∨
    (0x3400 ≤ c.toNat ∧ c.toNat ≤ 0x4dbf) ∨
    (0xac00 ≤ c.toNat ∧ c.toNat ≤ 0xd7af) ∨
    (0x3040 ≤ c.toNat ∧ c.toNat ≤ 0x309f) ∨
    (0x30a0 ≤ c.toNat ∧ c.toNat ≤ 0x30ff))

/-- Models Python `str.isalpha` on a single character, over the ASCII
letters and the five CJK blocks relevant to this program. -/
def pyIsAlpha (c : Char) : Bool :=
  decide ((97 ≤ c.toNat ∧ c.toNat ≤ 122) ∨ (65 ≤ c.toNat ∧ c.toNat ≤ 90)) || isCjk c

/-- Models Python `str.lower` on a single character (ASCII case mapping). -/
def pyLower (c : Char) : Char :=
  if 65 ≤ c.toNat ∧ c.toNat ≤ 90 then Char.ofNat (c.toNat + 32) else c

/-- The lower-cased working copy (`lower_ocr_text = ocr_text.lower()`). -/
def lowerOf (s : List Char) : List Char :=
  s.map pyLower

/-!
## Equation normalization (`src/math_solver.py`, `solve_equation`, lines 16-25)

The preprocessing inside `solve_equation` is, in source order:
`replace('x', '*x')`, `replace('X', '*X')`, `replace('=', '-(') + ')'`
(the closing parenthesis is appended outside the `replace` call, hence
unconditionally), `replace('^', '**')`, and `''.join(split())`.
Each `str.replace` with a one-character needle is a character-wise
substitution, and `''.join(s.split())` deletes exactly the whitespace
characters.
-/

/-- The string preprocessing performed by `solve_equation` before the
text is handed to the symbolic solver. -/
def solve_equation_normalize (s : List Char) : List Char :=
  let s1 := s.flatMap (fun c => if c = 'x' then ['*', 'x'] else [c])
  let s2 := s1.flatMap (fun c => if c = 'X' then ['*', 'X'] else [c])
  let s3 := (s2.flatMap (fun c => if c = '=' then ['-', '('] else [c])) ++ [')']
  let s4 := s3.flatMap (fun c => if c = '^' then ['*', '*'] else [c])
  s4.filter (fun c => !pyIsSpace c)

/-!
## Problem-type classification (`src/專題.py`, `determine_problem_type`)

The function is a cascade of `return` statements; each guard below is
named after the source condition it embeds, and the inner `if ... :
return "math"` statements without an `else` are flattened into
`else if` chains (falling through exactly when the source falls
through). The `image_obj` argument is never inspected by the source
function, so it is taken at an arbitrary type.
-/

/-- `very_bad_chars = {'°', '@', ':', '$'}`. -/
def veryBadChars : List Char := ['°', '@', ':', '$']

/-- The operator characters `"+-*/^"`. -/
def opChars : List Char := ['+', '-', '*', '/', '^']

/-- Math-symbol characters beyond digits: `"+-*/=^()."`. -/
def mathExtraChars : List Char := ['+', '-', '*', '/', '=', '^', '(', ')', '.']

/-- `valid_arithmetic_chars = set("0123456789+-*/^(). ")`. -/
def validArithChars : List Char :=
  ['0', '1', '2', '3', '4', '5', '6', '7', '8', '9',
   '+', '-', '*', '/', '^', '(', ')', '.', ' ']

/-- The `question_starters` list (identical to
`question_starters_for_filter` in the source). -/
def questionStarters : List (List Char) :=
  ["what".toList, "who".toList, "where".toList, "when".toList, "why".toList,
   "how".toList, "is".toList, "are".toList, "do".toList, "does".toList,
   "did".toList, "was".toList, "were".toList, "can".toList, "could".toList,
   "will".toList, "would".toList, "should".toList, "may".toList,
   "might".toList, "which".toList, "list".toList, "define".toList,
   "explain".toList, "describe".toList, "calculate".toList, "name".toList,
   "tell".toList]

/-- `explicit_math_phrases`. -/
def explicitMathPhrases : List (List Char) :=
  ["solve for".toList, "find x".toList, "find the value of x".toList,
   "derivative of".toList, "integral of".toList, "factorize".toList,
   "simplify:".toList]

/-- `p.isPrefixList l` decides whether `p` is an initial segment of `l`. -/
def isPrefixList : List Char → List Char → Bool
  | [], _ => true
  | _ :: _, [] => false
  | a :: as, b :: bs => a == b && isPrefixList as bs

/-- `containsSub l p` decides Python's substring test `p in l`. -/
def containsSub : List Char → List Char → Bool
  | [], p => p.isEmpty
  | c :: t, p => isPrefixList p (c :: t) || containsSub t p

/-- Python `l.endswith('?') or l.endswith('?)')`. -/
def pyEndsWithQ (l : List Char) : Bool :=
  match l.reverse with
  | '?' :: _ => true
  | ')' :: '?' :: _ => true
  | _ => false

/-- `words[0] if words else ""` for `words = l.split()`: drop leading
whitespace, then take the maximal run of non-whitespace characters. -/
def firstWordOf (l : List Char) : List Char :=
  (l.dropWhile pyIsSpace).takeWhile (fun c => !pyIsSpace c)

/-- Python `l.strip()`: remove leading and trailing whitespace. -/
def pyStrip (l : List Char) : List Char :=
  ((l.dropWhile pyIsSpace).reverse.dropWhile pyIsSpace).reverse

/-- `total_non_whitespace_chars`. -/
def totalNonWs (s : List Char) : Nat :=
  (s.filter (fun c => !pyIsSpace c)).length

/-- `cjk_char_count` (CJK characters among the non-whitespace ones). -/
def cjkCount (s : List Char) : Nat :=
  (s.filter (fun c => !pyIsSpace c && isCjk c)).length

/-- `num_math_symbols = sum(1 for char if char.isdigit() or char in "+-*/=^().")`. -/
def numMathSymbols (s : List Char) : Nat :=
  (s.filter (fun c => pyIsDigit c || mathExtraChars.contains c)).length

/-- `num_alpha_symbols` / `num_alpha_chars`. -/
def numAlphaSymbols (s : List Char) : Nat :=
  (s.filter pyIsAlpha).length

/-- `not ocr_text or ocr_text.isspace()` (Python `isspace` is true only
on a non-empty all-whitespace string). -/
abbrev emptyOrSpace (s : List Char) : Prop :=
  s.isEmpty = true ∨ (s.isEmpty = false ∧ s.all pyIsSpace = true)

/-- The CJK-dominance rule: `total_non_whitespace_chars > 5` and
`cjk_char_count / total_non_whitespace_chars > 0.5`. The float
comparison is written in the equivalent exact integer form
`total < 2 * cjk` (for a positive denominator `c / t > 1/2 ↔ t < 2 * c`,
and the float division rounds exactly at this threshold). -/
abbrev CjkRule (s : List Char) : Prop :=
  5 < totalNonWs s ∧ totalNonWs s < 2 * cjkCount s

/-- `any(char in lower_ocr_text for char in very_bad_chars)`. -/
abbrev HasBad (l : List Char) : Prop :=
  ∃ b ∈ veryBadChars, b ∈ l

/-- `is_question_like_despite_bad_chars`. -/
abbrev QuestionLikeDespiteBad (l : List Char) : Prop :=
  pyEndsWithQ l = true ∨ firstWordOf l ∈ questionStarters

/-- `is_definitely_question` (note `"solve"` is not in the starter list,
so the `first_word == "solve"` exception is vacuous, but it is kept). -/
abbrev IsDefinitelyQuestion (l : List Char) : Prop :=
  pyEndsWithQ l = true ∨
    (firstWordOf l ∈ questionStarters ∧
      ¬(firstWordOf l = "solve".toList ∧ '=' ∈ l))

/-- `has_math_operators = any(op in ocr_text for op in "+-*/^")`. -/
abbrev hasOps (s : List Char) : Prop :=
  ∃ op ∈ opChars, op ∈ s

/-- `has_digits = any(char.isdigit() for char in ocr_text)`. -/
abbrev hasDigits (s : List Char) : Prop :=
  ∃ c ∈ s, pyIsDigit c = true

/-- `any(c.isalpha() for c in ocr_text)`. -/
abbrev hasAlphaChar (s : List Char) : Prop :=
  ∃ c ∈ s, pyIsAlpha c = true

/-- The explicit-math-phrase rule with its `not any(bad)` re-check. -/
abbrev PhraseRule (s : List Char) : Prop :=
  (∃ p ∈ explicitMathPhrases, containsSub (lowerOf s) p = true) ∧
    ¬ HasBad (lowerOf s)

/-- The entry condition of the structural math check. -/
abbrev StructuralGate (s : List Char) : Prop :=
  ('=' ∈ s ∧ hasOps s) ∨
    (firstWordOf (lowerOf s) = "solve".toList ∧ hasOps s ∧
      (hasDigits s ∨ hasAlphaChar s))

/-- `num_math_symbols > num_alpha_symbols * 0.3 or num_alpha_symbols < 10
or first_word == "solve"`. The float comparison `m > a * 0.3` is written
in the equivalent exact integer form `3 * a < 10 * m` (the IEEE rounding
of `a * 0.3` never crosses an integer for these counts). -/
abbrev StructuralSignif (s : List Char) : Prop :=
  3 * numAlphaSymbols s < 10 * numMathSymbols s ∨
    numAlphaSymbols s < 10 ∨ firstWordOf (lowerOf s) = "solve".toList

/-- The structural math rule, including its `not any(bad)` re-check. -/
abbrev StructuralRule (s : List Char) : Prop :=
  StructuralGate s ∧ StructuralSignif s ∧ ¬ HasBad (lowerOf s)

/-- The pure-arithmetic rule: `is_pure_arithmetic` (digit, operator,
every character in the restricted set), non-empty after stripping,
the operator re-check, and the `not any(bad)` re-check. -/
abbrev PureArithRule (s : List Char) : Prop :=
  (hasDigits s ∧ hasOps s ∧ ∀ c ∈ s, c ∈ validArithChars) ∧
    0 < (pyStrip s).length ∧ hasOps s ∧ ¬ HasBad (lowerOf s)

/-- `num_alpha_chars > len(ocr_text) * 0.5 and len(ocr_text) > 10`.
The float comparison is written in the equivalent exact integer form
`len < 2 * num_alpha` (`0.5` is exact in binary floating point). -/
abbrev AlphaDominant (s : List Char) : Prop :=
  s.length < 2 * numAlphaSymbols s ∧ 10 < s.length

/-- The final `has_math_operators and has_digits` re-check (with its
`not any(bad)` guard), shared by the short-text and final fallbacks. -/
abbrev MathRecheck (s : List Char) : Prop :=
  hasOps s ∧ hasDigits s ∧ ¬ HasBad (lowerOf s)

/-- Embeds `determine_problem_type` from `src/專題.py`. The source's
inner `return "math"` statements without `else` branches are flattened
into this `else if` chain; the fall-through behaviour is identical. -/
def determine_problem_type {α : Type} (ocr_text : List Char) (image_obj : α) : String :=
  if emptyOrSpace ocr_text then "visual"
  else if CjkRule ocr_text then "text"
  else if HasBad (lowerOf ocr_text) then
    (if QuestionLikeDespiteBad (lowerOf ocr_text) then "text" else "visual")
  else if IsDefinitelyQuestion (lowerOf ocr_text) then "text"
  else if PhraseRule ocr_text then "math"
  else if StructuralRule ocr_text then "math"
  else if PureArithRule ocr_text then "math"
  else if AlphaDominant ocr_text then "text"
  else if (pyStrip ocr_text).length < 15 then
    (if MathRecheck ocr_text then "math" else "visual")
  else if hasDigits ocr_text ∨ hasAlphaChar ocr_text then
    (if MathRecheck ocr_text then "math" else "text")
  else "visual"

/-- The character class of the pure-arithmetic pattern
`[\d\.\+\-\*/\^\(\)\s]` from the claim. -/
abbrev arithRegexChar (c : Char) : Prop :=
  pyIsDigit c = true ∨
    c ∈ (['.', '+', '-', '*', '/', '^', '(', ')'] : List Char) ∨
    pyIsSpace c = true

/-!
## Text answering (`src/nlp_solver.py`, `answer_text_question`)

The remote backend (`ocr_module.solve_text_problem_with_gemini`) and
the local spaCy analysis (the knowledge-base logic from line 80 onward,
which the spec declares an external collaborator) are oracles supplied
through `NlpEnv`. The Boolean in the result records whether the remote
backend was attempted, which the source expresses purely by control
flow. `NLP is None` becomes `nlpLoaded = false`, and Python string
truthiness of `API_KEY` becomes non-emptiness.
-/

/-- The reserved error marker `"錯誤："` of failed backend responses. -/
def errMarker : List Char := "錯誤：".toList

/-- The placeholder credential values recognised by the source. -/
def placeholderKeys : List (List Char) :=
  ["YOUR_GEMINI_API_KEY".toList, "GEMINI_API_KEY".toList]

/-- `API_KEY and API_KEY not in ["YOUR_GEMINI_API_KEY", "GEMINI_API_KEY"]`. -/
abbrev geminiConfigured (key : List Char) : Prop :=
  key ≠ [] ∧ key ∉ placeholderKeys

/-- The module-level state and external collaborators of `nlp_solver`. -/
structure NlpEnv where
  nlpLoaded : Bool
  apiKey : List Char
  geminiAnswer : List Char → List Char
  spacyAnalysis : List Char → List Char

/-- `contains_cjk`: some single character is CJK. -/
abbrev containsCjkChar (t : List Char) : Prop :=
  ∃ c ∈ t, isCjk c = true

/-- Whitespace splitting with explicit fuel so that it reduces
structurally; fuel `l.length` always suffices. -/
def pyWordsAux : Nat → List Char → List (List Char)
  | 0, _ => []
  | _ + 1, [] => []
  | n + 1, c :: t =>
    if pyIsSpace c then pyWordsAux n t
    else (c :: t.takeWhile (fun x => !pyIsSpace x)) ::
      pyWordsAux n (t.dropWhile (fun x => !pyIsSpace x))

/-- Python `text.split()`. -/
def pyWords (l : List Char) : List (List Char) :=
  pyWordsAux l.length l

/-- `should_use_gemini`: the credential gate together with the three
heuristics (`contains_cjk`, `contains_digits and is_long_question`,
`len(text.split()) > 7`). -/
abbrev shouldUseGemini (key t : List Char) : Prop :=
  geminiConfigured key ∧
    (containsCjkChar t ∨ (hasDigits t ∧ 50 < t.length) ∨
      7 < (pyWords t).length)

/-- The combined error returned when both collaborators are absent. -/
def bothUnavailableError : List Char :=
  "錯誤：spaCy NLP 模型未成功載入，且 Gemini API 金鑰未設定。無法處理文字問題。".toList

/-- The single combined error returned when the local model is missing
after the remote path was skipped or failed. -/
def localUnavailableError : List Char :=
  "錯誤：spaCy NLP 模型未成功載入。Gemini API 嘗試失敗或未啟用。".toList

/-- The successful-answer format `f"(Gemini AI 解答):\n{...}"`. -/
def geminiWrap (ans : List Char) : List Char :=
  "(Gemini AI 解答):\n".toList ++ ans

/-- Embeds `answer_text_question` from `src/nlp_solver.py`. The first
component records whether the remote backend was attempted; the second
is the returned string. -/
def answer_text_question (env : NlpEnv) (text : List Char) : Bool × List Char :=
  if env.nlpLoaded = false ∧ env.apiKey = [] then (false, bothUnavailableError)
  else if shouldUseGemini env.apiKey text then
    (if ¬ isPrefixList errMarker (env.geminiAnswer text) = true then
      (true, geminiWrap (env.geminiAnswer text))
    else if env.nlpLoaded = false then (true, localUnavailableError)
    else (true, env.spacyAnalysis text))
  else if env.nlpLoaded = false then (false, localUnavailableError)
  else (false, env.spacyAnalysis text)

/-- Modelled from the spec (§4.1, the Script Detector contract): the
ratio value `cjk_count / non_whitespace_count`, `0` when the
denominator is zero. The classifier inlines this computation behind
the `total > 5` guard. -/
def cjk_ratio_spec (s : List Char) : ℚ :=
  if totalNonWs s = 0 then 0 else (cjkCount s : ℚ) / (totalNonWs s : ℚ)

/-! ## Helper lemmas -/

/-- A character of the first word is a character of the text. -/
theorem mem_of_mem_firstWordOf {c : Char} {l : List Char}
    (h : c ∈ firstWordOf l) : c ∈ l :=
  (List.dropWhile_sublist pyIsSpace).subset ((List.takeWhile_sublist _).subset h)

/-- Characters of a verified initial segment are characters of the list. -/
theorem mem_of_isPrefixList : ∀ {p l : List Char},
    isPrefixList p l = true → ∀ c ∈ p, c ∈ l := by
  intro p
  induction p with
  | nil => intro l _ c hc; simp at hc
  | cons a as ih =>
    intro l h c hc
    cases l with
    | nil => simp [isPrefixList] at h
    | cons b bs =>
      simp only [isPrefixList, Bool.and_eq_true, beq_iff_eq] at h
      obtain ⟨rfl, h2⟩ := h
      rcases List.mem_cons.mp hc with rfl | hc
      · exact List.mem_cons_self _ _
      · exact List.mem_cons_of_mem _ (ih h2 c hc)

/-- Characters of a substring found by `containsSub` are characters of
the text. -/
theorem mem_of_containsSub : ∀ {l p : List Char},
    containsSub l p = true → ∀ c ∈ p, c ∈ l := by
  intro l
  induction l with
  | nil =>
    intro p h c hc
    simp only [containsSub, List.isEmpty_iff] at h
    subst h; simp at hc
  | cons a t ih =>
    intro p h c hc
    simp only [containsSub, Bool.or_eq_true] at h
    rcases h with h | h
    · exact mem_of_isPrefixList h c hc
    · exact List.mem_cons_of_mem _ (ih h c hc)

/-- If the text ends with `?` or `?)`, it contains a question mark. -/
theorem mem_q_of_pyEndsWithQ {l : List Char} (h : pyEndsWithQ l = true) :
    '?' ∈ l := by
  rw [← List.mem_reverse]
  unfold pyEndsWithQ at h
  split at h
  · rename_i heq; rw [heq]; exact List.mem_cons_self _ _
  · rename_i heq; rw [heq]; exact List.mem_cons_of_mem _ (List.mem_cons_self _ _)
  · exact absurd h (by simp)

/-- `pyLower` keeps non-uppercase characters unchanged. -/
theorem pyLower_eq_self {c : Char} (h : ¬ (65 ≤ c.toNat ∧ c.toNat ≤ 90)) :
    pyLower c = c :=
  if_neg h

/-- Lower-casing a text with no ASCII uppercase letters is the identity. -/
theorem lowerOf_eq_self {s : List Char}
    (h : ∀ c ∈ s, ¬ (65 ≤ c.toNat ∧ c.toNat ≤ 90)) : lowerOf s = s := by
  unfold lowerOf
  calc s.map pyLower = s.map id :=
        List.map_congr_left (fun a ha => pyLower_eq_self (h a ha))
    _ = s := List.map_id s

/-- A digit character is not whitespace. -/
theorem digit_not_space {c : Char} (h : pyIsDigit c = true) :
    pyIsSpace c = false := by
  simp only [pyIsDigit, decide_eq_true_eq] at h
  simp only [pyIsSpace, decide_eq_false_iff_not]
  omega

/-- An empty-or-whitespace-only text has no non-whitespace characters. -/
theorem totalNonWs_eq_zero {s : List Char} (h : emptyOrSpace s) :
    totalNonWs s = 0 := by
  unfold totalNonWs
  rcases h with h | ⟨_, h⟩
  · rw [List.isEmpty_iff] at h; subst h; rfl
  · rw [List.length_eq_zero, List.filter_eq_nil_iff]
    intro a ha
    have := List.all_eq_true.mp h a ha
    simp [this]

/-- Pure-arithmetic characters are not ASCII uppercase letters. -/
theorem arith_not_upper {c : Char} (h : arithRegexChar c) :
    ¬ (65 ≤ c.toNat ∧ c.toNat ≤ 90) := by
  rcases h with h | h | h
  · simp only [pyIsDigit, decide_eq_true_eq] at h; omega
  · fin_cases h <;> decide
  · simp only [pyIsSpace, decide_eq_true_eq] at h; omega

/-- Pure-arithmetic characters are not ASCII lowercase letters. -/
theorem arith_not_lowercase {c : Char} (h : arithRegexChar c) :
    ¬ (97 ≤ c.toNat ∧ c.toNat ≤ 122) := by
  rcases h with h | h | h
  · simp only [pyIsDigit, decide_eq_true_eq] at h; omega
  · fin_cases h <;> decide
  · simp only [pyIsSpace, decide_eq_true_eq] at h; omega

/-- Pure-arithmetic characters are not alphabetic. -/
theorem arith_not_alpha {c : Char} (h : arithRegexChar c) :
    pyIsAlpha c = false := by
  rcases h with h | h | h
  · simp only [pyIsDigit, decide_eq_true_eq] at h
    simp only [pyIsAlpha, isCjk, Bool.or_eq_false_iff, decide_eq_false_iff_not]
    omega
  · fin_cases h <;> decide
  · simp only [pyIsSpace, decide_eq_true_eq] at h
    simp only [pyIsAlpha, isCjk, Bool.or_eq_false_iff, decide_eq_false_iff_not]
    omega

/-- Pure-arithmetic characters never count towards `cjk_char_count`. -/
theorem arith_not_cjk_nonws {c : Char} (h : arithRegexChar c) :
    (!pyIsSpace c && isCjk c) = false := by
  rcases h with h | h | h
  · simp only [pyIsDigit, decide_eq_true_eq] at h
    have : isCjk c = false := by
      simp only [isCjk, decide_eq_false_iff_not]; omega
    simp [this]
  · fin_cases h <;> decide
  · simp [h]

/-- C1: the claimed normalization shape fails on the code. On input
`"2x - 4"` (no equality sign, taken from the module's own test list) the
result `"2*x-4)"` contains a parenthesis produced by the equality
rewrite step even though no equality sign is present, because the code
appends `')'` unconditionally; and on `"1 = 2"` the result is
`"1-(2)"`, not `"(1)-(2)"`: the left-hand side is never wrapped. -/
theorem c1_normalize_stray_paren :
    solve_equation_normalize "2x - 4".toList = "2*x-4)".toList ∧
    solve_equation_normalize "1 = 2".toList = "1-(2)".toList := by
  constructor <;> decide

/-- C2: normalization is not idempotent on the already-canonical input
`"2+2"`: one application yields `"2+2)"`, a second yields `"2+2))"`. -/
theorem c2_normalize_not_idempotent :
    solve_equation_normalize "2+2".toList = "2+2)".toList ∧
    solve_equation_normalize (solve_equation_normalize "2+2".toList) ≠
      solve_equation_normalize "2+2".toList := by
  constructor <;> decide

/-! ## Classifier claims -/

/-- C4: any text with more than 5 non-whitespace characters and CJK
ratio above one half (written in the exact integer form
`total < 2 * cjk`) is classified `"text"`, whatever else it contains
and whatever the image argument is. -/
theorem c4_cjk_dominant_text (s : List Char) {α : Type} (img : α)
    (h : 5 < totalNonWs s ∧ totalNonWs s < 2 * cjkCount s) :
    determine_problem_type s img = "text" := by
  have h0 : ¬ emptyOrSpace s := fun he => by
    have := totalNonWs_eq_zero he
    omega
  unfold determine_problem_type
  rw [if_neg h0, if_pos h]

/-- Witness for C4 at the CJK input `"圖片中有一個問題"`. -/
theorem c4_cjk_dominant_text_witness :
    (5 < totalNonWs "圖片中有一個問題".toList ∧
      totalNonWs "圖片中有一個問題".toList <
        2 * cjkCount "圖片中有一個問題".toList) ∧
    determine_problem_type "圖片中有一個問題".toList () = "text" :=
  ⟨by decide, c4_cjk_dominant_text _ () (by decide)⟩

/-- C5 fails as stated: the CJK-dominance rule runs before the
forbidden-symbol rule, so `"數學問題:解方程"` — which contains the
forbidden colon and is not question-shaped — is classified `"text"`,
not `"visual"`. -/
theorem c5_counterexample :
    (HasBad "數學問題:解方程".toList ∧
      pyEndsWithQ (lowerOf "數學問題:解方程".toList) = false ∧
      firstWordOf (lowerOf "數學問題:解方程".toList) ∉ questionStarters ∧
      ¬ emptyOrSpace "數學問題:解方程".toList) ∧
    determine_problem_type "數學問題:解方程".toList () ≠ "visual" := by
  constructor
  · exact ⟨by decide, by decide, by decide, by decide⟩
  · decide

/-- C5 amended: for non-empty, non-whitespace-only text that is not
CJK-dominant, contains a forbidden symbol, and is not question-shaped,
the classifier returns `"visual"` (and in particular never `"math"`). -/
theorem c5_forbidden_symbol_visual (s : List Char) {α : Type} (img : α)
    (h0 : ¬ emptyOrSpace s) (hcjk : ¬ CjkRule s) (hbad : HasBad s)
    (hq1 : pyEndsWithQ (lowerOf s) = false)
    (hq2 : firstWordOf (lowerOf s) ∉ questionStarters) :
    determine_problem_type s img = "visual" := by
  have hbad' : HasBad (lowerOf s) := by
    obtain ⟨b, hb, hbs⟩ := hbad
    refine ⟨b, hb, ?_⟩
    have hbeq : pyLower b = b := by fin_cases hb <;> decide
    unfold lowerOf
    exact List.mem_map.mpr ⟨b, hbs, hbeq⟩
  have hnq : ¬ QuestionLikeDespiteBad (lowerOf s) := by
    rintro (h | h)
    · rw [hq1] at h; simp at h
    · exact hq2 h
  unfold determine_problem_type
  rw [if_neg h0, if_neg hcjk, if_pos hbad', if_neg hnq]

/-- Witness for the amended C5 at `"@@@@@@@"`. -/
theorem c5_forbidden_symbol_visual_witness :
    (¬ emptyOrSpace "@@@@@@@".toList ∧ ¬ CjkRule "@@@@@@@".toList ∧
      HasBad "@@@@@@@".toList ∧
      pyEndsWithQ (lowerOf "@@@@@@@".toList) = false ∧
      firstWordOf (lowerOf "@@@@@@@".toList) ∉ questionStarters) ∧
    determine_problem_type "@@@@@@@".toList () = "visual" :=
  ⟨⟨by decide, by decide, by decide, by decide, by decide⟩,
    c5_forbidden_symbol_visual _ () (by decide) (by decide) (by decide)
      (by decide) (by decide)⟩

/-- C3 fails as stated: `"................"` reaches the final fallback
(every earlier rule declines, the trimmed length is 16) with neither a
digit nor an alphabetic character, and the classifier returns
`"visual"`, not `"text"` as the claim requires. -/
theorem c3_counterexample :
    (¬ emptyOrSpace "................".toList ∧
      ¬ CjkRule "................".toList ∧
      ¬ HasBad (lowerOf "................".toList) ∧
      ¬ IsDefinitelyQuestion (lowerOf "................".toList) ∧
      ¬ PhraseRule "................".toList ∧
      ¬ StructuralRule "................".toList ∧
      ¬ PureArithRule "................".toList ∧
      ¬ AlphaDominant "................".toList ∧
      15 ≤ (pyStrip "................".toList).length ∧
      ¬ hasDigits "................".toList ∧
      ¬ hasAlphaChar "................".toList) ∧
    determine_problem_type "................".toList () = "visual" := by
  constructor
  · exact ⟨by decide, by decide, by decide, by decide, by decide, by decide,
      by decide, by decide, by decide, by decide, by decide⟩
  · decide

/-- C3 amended: on the final-fallback path, a text with a digit or an
alphabetic character yields `"math"` when the operator-and-digit
re-check holds and `"text"` otherwise; a text with neither yields
`"visual"` (the absolute default), not `"text"`. -/
theorem c3_final_fallback (s : List Char) {α : Type} (img : α)
    (h1 : ¬ emptyOrSpace s) (h2 : ¬ CjkRule s) (h3 : ¬ HasBad (lowerOf s))
    (h4 : ¬ IsDefinitelyQuestion (lowerOf s)) (h5 : ¬ PhraseRule s)
    (h6 : ¬ StructuralRule s) (h7 : ¬ PureArithRule s)
    (h8 : ¬ AlphaDominant s) (h9 : 15 ≤ (pyStrip s).length) :
    determine_problem_type s img =
      if hasDigits s ∨ hasAlphaChar s then
        (if MathRecheck s then "math" else "text")
      else "visual" := by
  unfold determine_problem_type
  rw [if_neg h1, if_neg h2, if_neg h3, if_neg h4, if_neg h5, if_neg h6,
    if_neg h7, if_neg h8, if_neg (by omega : ¬ (pyStrip s).length < 15)]

/-- Witness for the amended C3 at `"............abc"` (final fallback,
alphabetic characters present, no operator: result `"text"`). -/
theorem c3_final_fallback_witness :
    (¬ emptyOrSpace "............abc".toList ∧
      ¬ CjkRule "............abc".toList ∧
      ¬ HasBad (lowerOf "............abc".toList) ∧
      ¬ IsDefinitelyQuestion (lowerOf "............abc".toList) ∧
      ¬ PhraseRule "............abc".toList ∧
      ¬ StructuralRule "............abc".toList ∧
      ¬ PureArithRule "............abc".toList ∧
      ¬ AlphaDominant "............abc".toList ∧
      15 ≤ (pyStrip "............abc".toList).length) ∧
    determine_problem_type "............abc".toList () =
      if hasDigits "............abc".toList ∨ hasAlphaChar "............abc".toList then
        (if MathRecheck "............abc".toList then "math" else "text")
      else "visual" :=
  ⟨⟨by decide, by decide, by decide, by decide, by decide, by decide,
      by decide, by decide, by decide⟩,
    c3_final_fallback _ () (by decide) (by decide) (by decide) (by decide)
      (by decide) (by decide) (by decide) (by decide) (by decide)⟩

/-- C6: text over the pure-arithmetic character class with at least one
digit and one operator is classified `"math"`. -/
theorem c6_pure_arithmetic_math (s : List Char) {α : Type} (img : α)
    (hall : ∀ c ∈ s, arithRegexChar c) (hd : hasDigits s) (ho : hasOps s) :
    determine_problem_type s img = "math" := by
  obtain ⟨d, hds, hdig⟩ := hd
  have hlower : lowerOf s = s :=
    lowerOf_eq_self (fun c hc => arith_not_upper (hall c hc))
  have h1 : ¬ emptyOrSpace s := by
    rintro (he | ⟨_, he⟩)
    · rw [List.isEmpty_iff] at he; subst he; simp at hds
    · have hsp := List.all_eq_true.mp he d hds
      rw [digit_not_space hdig] at hsp
      simp at hsp
  have hcjk0 : cjkCount s = 0 := by
    unfold cjkCount
    rw [List.length_eq_zero, List.filter_eq_nil_iff]
    intro a ha
    simp [arith_not_cjk_nonws (hall a ha)]
  have h2 : ¬ CjkRule s := by
    rintro ⟨_, hlt⟩
    rw [hcjk0] at hlt
    omega
  have h3 : ¬ HasBad (lowerOf s) := by
    rw [hlower]
    rintro ⟨b, hb, hbs⟩
    have hb' := hall b hbs
    fin_cases hb <;> exact absurd hb' (by decide)
  have h4 : ¬ IsDefinitelyQuestion (lowerOf s) := by
    rw [hlower]
    rintro (hq | ⟨hst, _⟩)
    · exact absurd (hall '?' (mem_q_of_pyEndsWithQ hq)) (by decide)
    · have hstart : ∀ w ∈ questionStarters,
          ∃ c ∈ w, 97 ≤ c.toNat ∧ c.toNat ≤ 122 := by decide
      obtain ⟨c, hcw, hc⟩ := hstart _ hst
      exact absurd hc (arith_not_lowercase (hall c (mem_of_mem_firstWordOf hcw)))
  have h5 : ¬ PhraseRule s := by
    rintro ⟨⟨p, hp, hcs⟩, _⟩
    rw [hlower] at hcs
    have hph : ∀ p ∈ explicitMathPhrases,
        ∃ c ∈ p, 97 ≤ c.toNat ∧ c.toNat ≤ 122 := by decide
    obtain ⟨c, hcp, hc⟩ := hph _ hp
    exact absurd hc (arith_not_lowercase (hall c (mem_of_containsSub hcs c hcp)))
  have h6 : ¬ StructuralRule s := by
    rintro ⟨hgate, _, _⟩
    rcases hgate with ⟨heq, _⟩ | ⟨hfw, _, _⟩
    · exact absurd (hall '=' heq) (by decide)
    · rw [hlower] at hfw
      have hs' : 's' ∈ firstWordOf s := by rw [hfw]; decide
      exact absurd (hall 's' (mem_of_mem_firstWordOf hs')) (by decide)
  have halpha0 : numAlphaSymbols s = 0 := by
    unfold numAlphaSymbols
    rw [List.length_eq_zero, List.filter_eq_nil_iff]
    intro a ha
    simp [arith_not_alpha (hall a ha)]
  have h8 : ¬ AlphaDominant s := by
    rintro ⟨hlen, _⟩
    rw [halpha0] at hlen
    omega
  have hre : MathRecheck s := ⟨ho, ⟨d, hds, hdig⟩, h3⟩
  unfold determine_problem_type
  rw [if_neg h1, if_neg h2, if_neg h3, if_neg h4, if_neg h5, if_neg h6]
  by_cases h7 : PureArithRule s
  · rw [if_pos h7]
  · rw [if_neg h7, if_neg h8]
    by_cases h9 : (pyStrip s).length < 15
    · rw [if_pos h9, if_pos hre]
    · rw [if_neg h9,
        if_pos (show hasDigits s ∨ hasAlphaChar s from Or.inl ⟨d, hds, hdig⟩),
        if_pos hre]

/-- Witness for C6 at `"1 + 2"`. -/
theorem c6_pure_arithmetic_math_witness :
    ((∀ c ∈ "1 + 2".toList, arithRegexChar c) ∧
      hasDigits "1 + 2".toList ∧ hasOps "1 + 2".toList) ∧
    determine_problem_type "1 + 2".toList () = "math" :=
  ⟨⟨by decide, by decide, by decide⟩,
    c6_pure_arithmetic_math _ () (by decide) (by decide) (by decide)⟩

/-- C10: with digits and an equality sign but no operator character,
neither the structural math rule, nor the pure-arithmetic rule, nor the
operator-and-digit re-check of the two fallbacks can fire, and in
particular `determine_problem_type "solve x=2" img = "visual"` for
every image argument. -/
theorem c10_equals_not_operator (s : List Char) {α : Type} (img : α)
    (hd : hasDigits s) (he : '=' ∈ s) (hno : ¬ hasOps s) :
    (¬ StructuralRule s ∧ ¬ PureArithRule s ∧ ¬ MathRecheck s) ∧
    determine_problem_type "solve x=2".toList img = "visual" := by
  constructor
  · refine ⟨?_, ?_, ?_⟩
    · rintro ⟨hgate, _, _⟩
      rcases hgate with ⟨_, hops⟩ | ⟨_, hops, _⟩ <;> exact hno hops
    · rintro ⟨⟨_, hops, _⟩, _⟩
      exact hno hops
    · rintro ⟨hops, _⟩
      exact hno hops
  · have himg : determine_problem_type "solve x=2".toList img =
        determine_problem_type "solve x=2".toList () := rfl
    rw [himg]
    decide

/-- Witness for C10 at `"x=2"` (digits and `=`, no operator). -/
theorem c10_equals_not_operator_witness :
    (hasDigits "x=2".toList ∧ '=' ∈ "x=2".toList ∧ ¬ hasOps "x=2".toList) ∧
    (¬ StructuralRule "x=2".toList ∧ ¬ PureArithRule "x=2".toList ∧
      ¬ MathRecheck "x=2".toList) ∧
    determine_problem_type "solve x=2".toList () = "visual" := by
  have h := c10_equals_not_operator "x=2".toList () (by decide) (by decide) (by decide)
  exact ⟨⟨by decide, by decide, by decide⟩, h.1, h.2⟩

/-- C7 fails as stated: with a configured credential, the text
`"tell me about the 貓"` — not CJK-dominant (1 CJK character in 15),
without digits, with only 5 words — still triggers the remote attempt,
because the source tests for the presence of any single CJK character,
not for CJK dominance. -/
theorem c7_counterexample :
    (answer_text_question
        ⟨true, "k".toList, fun _ => "ok".toList, fun _ => ([] : List Char)⟩
        "tell me about the 貓".toList).1 = true ∧
    geminiConfigured "k".toList ∧
    ¬ (CjkRule "tell me about the 貓".toList ∨
        (hasDigits "tell me about the 貓".toList ∧
          50 < "tell me about the 貓".toList.length) ∨
        7 < (pyWords "tell me about the 貓".toList).length) := by
  refine ⟨?_, ?_, ?_⟩ <;> decide

/-- C7 amended: the remote backend is attempted exactly when the
credential is present and not a placeholder, and the text contains a
CJK character, or contains digits with length above 50, or has more
than 7 words. In particular, with an unconfigured credential the remote
path is never attempted. -/
theorem c7_remote_gate (env : NlpEnv) (t : List Char) :
    (answer_text_question env t).1 = true ↔
      ((env.apiKey ≠ [] ∧ env.apiKey ∉ placeholderKeys) ∧
        (containsCjkChar t ∨ (hasDigits t ∧ 50 < t.length) ∨
          7 < (pyWords t).length)) := by
  unfold answer_text_question
  split_ifs with h1 h2 h3 h4 h5
  · exact iff_of_false (by simp) (fun hc => hc.1.1 h1.2)
  · exact iff_of_true rfl h2
  · exact iff_of_true rfl h2
  · exact iff_of_true rfl h2
  · exact iff_of_false (by simp) h2
  · exact iff_of_false (by simp) h2

/-- C8: when the remote backend is attempted and its response carries
the reserved error marker, the response is never returned as a
successful answer: the result is the local analysis when the model is
loaded, and the single combined error string otherwise — returned as
data, since the embedded function is total. -/
theorem c8_error_marker_fallback (env : NlpEnv) (t : List Char)
    (hg : shouldUseGemini env.apiKey t)
    (herr : isPrefixList errMarker (env.geminiAnswer t) = true) :
    answer_text_question env t =
      (true, if env.nlpLoaded = true then env.spacyAnalysis t
             else localUnavailableError) := by
  have h1 : ¬ (env.nlpLoaded = false ∧ env.apiKey = []) := fun hc => hg.1.1 hc.2
  unfold answer_text_question
  rw [if_neg h1, if_pos hg, if_neg (by simp [herr])]
  by_cases hn : env.nlpLoaded = false
  · rw [if_pos hn, hn]
    simp
  · rw [if_neg hn]
    have hn' : env.nlpLoaded = true := by simpa using hn
    rw [hn']
    simp

/-- Witness for C8: eight words trigger the remote attempt, the oracle
answers with the error marker, the local model is absent, and the
combined error string is returned. -/
theorem c8_error_marker_fallback_witness :
    (shouldUseGemini "k".toList "a b c d e f g h".toList ∧
      isPrefixList errMarker "錯誤：呼叫逾時".toList = true) ∧
    answer_text_question
        ⟨false, "k".toList, fun _ => "錯誤：呼叫逾時".toList,
          fun _ => ([] : List Char)⟩
        "a b c d e f g h".toList = (true, localUnavailableError) := by
  have h := c8_error_marker_fallback
    ⟨false, "k".toList, fun _ => "錯誤：呼叫逾時".toList,
      fun _ => ([] : List Char)⟩
    "a b c d e f g h".toList (by decide) (by decide)
  exact ⟨⟨by decide, by decide⟩, by simpa using h⟩

/-- C9: whitespace-only (or empty) input has ratio `0`, is classified
`"visual"` before any ratio is computed, and has zero non-whitespace
count; and whenever the classifier's guard `total > 5` admits the
division, the denominator is strictly positive and the computed ratio
agrees with the guarded specification value — no division by zero. -/
theorem c9_ratio_guarded (s t : List Char) {α : Type} (img : α)
    (hs : s.all pyIsSpace = true) (ht : 5 < totalNonWs t) :
    (cjk_ratio_spec s = 0 ∧ determine_problem_type s img = "visual" ∧
      totalNonWs s = 0) ∧
    (0 < totalNonWs t ∧
      (cjkCount t : ℚ) / (totalNonWs t : ℚ) = cjk_ratio_spec t) := by
  have h0 : totalNonWs s = 0 := by
    unfold totalNonWs
    rw [List.length_eq_zero, List.filter_eq_nil_iff]
    intro a ha
    simp [List.all_eq_true.mp hs a ha]
  have hes : emptyOrSpace s := by
    by_cases he : s.isEmpty = true
    · exact Or.inl he
    · exact Or.inr ⟨by simpa using he, hs⟩
  refine ⟨⟨?_, ?_, h0⟩, by omega, ?_⟩
  · unfold cjk_ratio_spec
    rw [if_pos h0]
  · unfold determine_problem_type
    rw [if_pos hes]
  · unfold cjk_ratio_spec
    rw [if_neg (by omega)]

/-- Witness for C9 at the whitespace-only `"   "` and the six-character
`"123456"`. -/
theorem c9_ratio_guarded_witness :
    ("   ".toList.all pyIsSpace = true ∧ 5 < totalNonWs "123456".toList) ∧
    (cjk_ratio_spec "   ".toList = 0 ∧
      determine_problem_type "   ".toList () = "visual" ∧
      totalNonWs "   ".toList = 0) ∧
    (0 < totalNonWs "123456".toList ∧
      (cjkCount "123456".toList : ℚ) / (totalNonWs "123456".toList : ℚ) =
        cjk_ratio_spec "123456".toList) := by
  have h := c9_ratio_guarded "   ".toList "123456".toList () (by decide) (by decide)
  exact ⟨⟨by decide, by decide⟩, h.1, h.2⟩
